import Mathlib

/-!
Verification of the Image_Enhancer pipeline (shallow embedding).

The repository has three pipeline variants:
* the lenient service variant (`src/main.py`: `enhance_image`, `upload_image`),
* the baseline batch variant (`src/enhance_images.py`: `enhance_image`,
  `apply_filters` and the module-level main loop),
* the aggressive legacy variant (`src/old_version/enhance_images.py`:
  `enhance_image`, `super_resolution`, `apply_filters`, `main`).

Image buffers are modelled by their shape (height, width, channels) plus a
list of byte samples.  OpenCV / numpy primitives are third-party calls; the
embedding abstracts each primitive as a field of a `Cv` record returning
either a buffer or a raised Python exception class, so that "any exception
raised during a sub-step" can be quantified over.  Python `try/except`
clauses are translated by `pytry`, with Python's exception-class subtyping
(`FileNotFoundError <: OSError`, everything `<: Exception`) made explicit.
Writes performed by a run (calls to `cv2.imwrite`) are logged in a write
trace so that claims about "no output file is written" can be stated.
-/

namespace ImageEnhancer

/-- Shape of an image buffer: height, width and channel count. -/
structure Shape where
  height : Nat
  width : Nat
  channels : Nat
deriving DecidableEq, Repr

/-- Shape of a single-channel image with the same pixel grid. -/
def grayOf (s : Shape) : Shape :=
  ⟨s.height, s.width, 1⟩

/-- An in-memory image buffer: a shape plus its raw 8-bit samples. -/
structure Buffer where
  shape : Shape
  data : List Nat
deriving DecidableEq, Repr

/-- Python exception classes that the repository's `except` clauses mention,
plus `cvError` (OpenCV's `cv2.error`) as a representative exception outside
every narrow clause. -/
inductive ExcClass where
  | valueError
  | attributeError
  | typeError
  | osError
  | fileNotFoundError
  | cvError
deriving DecidableEq, Repr

deriving instance DecidableEq for Except

/-- Python exception-class subtyping, restricted to the classes above:
`FileNotFoundError` is a subclass of `OSError`; every class is a subclass of
itself. -/
def ExcClass.isSubclassOf (c d : ExcClass) : Bool :=
  c == d || (c == ExcClass.fileNotFoundError && d == ExcClass.osError)

/-- An `except` clause: either a tuple of exception classes, or the
catch-all `except Exception`. -/
inductive Clause where
  | classes (cs : List ExcClass)
  | exceptionAll
deriving DecidableEq, Repr

/-- Whether a raised exception class is caught by an `except` clause. -/
def Clause.catches : Clause → ExcClass → Bool
  | Clause.classes cs, c => cs.any (fun d => c.isSubclassOf d)
  | Clause.exceptionAll, _ => true

/-- Color-conversion codes used by the repository. -/
inductive ColorCode where
  | bgr2lab
  | lab2bgr
  | bgr2gray
deriving DecidableEq, Repr

/-- Output shape of `cv2.cvtColor` for each code used: BGR↔LAB keep the
shape, BGR→GRAY drops to one channel. -/
def cvtShape : ColorCode → Shape → Shape
  | ColorCode.bgr2gray, s => grayOf s
  | _, s => s

/-- A 3×3 convolution kernel (used by the legacy high-boost pass). -/
abbrev Kernel3 : Type := List (List Int)

/-- Behaviour of the OpenCV / numpy primitives the pipelines call.  Each
call either returns a buffer (`Except.ok`) or raises a Python exception
(`Except.error`).  Numeric configuration constants are passed explicitly so
that each variant's parameter set appears in its translation. -/
structure Cv where
  fastNlMeansDenoisingColored : Buffer → Nat → Nat → Nat → Nat → Except ExcClass Buffer
  gaussianBlur : Buffer → Nat × Nat → Rat → Except ExcClass Buffer
  addWeighted : Buffer → Rat → Buffer → Rat → Rat → Except ExcClass Buffer
  filter2D : Buffer → Int → Kernel3 → Except ExcClass Buffer
  cvtColor : Buffer → ColorCode → Except ExcClass Buffer
  split : Buffer → Except ExcClass (Buffer × Buffer × Buffer)
  claheApply : Rat → Nat × Nat → Buffer → Except ExcClass Buffer
  merge : Buffer × Buffer × Buffer → Except ExcClass Buffer
  detailEnhance : Buffer → Nat → Rat → Except ExcClass Buffer
  canny : Buffer → Nat → Nat → Except ExcClass Buffer
  bilateralFilter : Buffer → Nat → Nat → Nat → Except ExcClass Buffer
  srCreate : Except ExcClass Unit
  srReadModel : String → Except ExcClass Unit
  srSetModel : String → Nat → Except ExcClass Unit
  srUpsample : Buffer → Except ExcClass Buffer
  imwrite : String → Buffer → Except ExcClass Bool

/-- Translation of a Python `try: body except clause: return dflt` block. -/
def pytry {α : Type} (body : Except ExcClass α) (cl : Clause) (dflt : α) :
    Except ExcClass α :=
  match body with
  | Except.ok a => Except.ok a
  | Except.error c => if cl.catches c then Except.ok dflt else Except.error c

/-- Body of the lenient service `enhance_image` (`src/main.py`, lines
34-51): mild denoise (5,5,7,21), gentle unsharp mask (sigma 1.0, weights
1.3 / -0.3), CLAHE on the L channel (clip 2.0, 8×8 tiles). -/
def enhance_body_service (cv : Cv) (image : Buffer) : Except ExcClass Buffer :=
  match cv.fastNlMeansDenoisingColored image 5 5 7 21 with
  | Except.error c => Except.error c
  | Except.ok denoised =>
  match cv.gaussianBlur denoised (0, 0) 1 with
  | Except.error c => Except.error c
  | Except.ok blur =>
  match cv.addWeighted denoised (13/10) blur (-(3/10)) 0 with
  | Except.error c => Except.error c
  | Except.ok sharpened =>
  match cv.cvtColor sharpened ColorCode.bgr2lab with
  | Except.error c => Except.error c
  | Except.ok lab =>
  match cv.split lab with
  | Except.error c => Except.error c
  | Except.ok (l, a, b) =>
  match cv.claheApply 2 (8, 8) l with
  | Except.error c => Except.error c
  | Except.ok l2 =>
  match cv.merge (l2, a, b) with
  | Except.error c => Except.error c
  | Except.ok merged =>
  cv.cvtColor merged ColorCode.lab2bgr

/-- The service `enhance_image` (`src/main.py`, lines 31-54): the body is
wrapped in `try ... except (ValueError, AttributeError, TypeError)` which
returns the original `image`. -/
def enhance_image_service (cv : Cv) (image : Buffer) : Except ExcClass Buffer :=
  pytry (enhance_body_service cv image)
    (Clause.classes [ExcClass.valueError, ExcClass.attributeError, ExcClass.typeError])
    image

/-- The baseline batch `enhance_image` (`src/enhance_images.py`, lines
13-37): denoise (10,10,7,21), unsharp mask (sigma 1.0, weights 1.5 / -0.5),
CLAHE (clip 2.5, 8×8 tiles).  This variant has no `try/except` at all, so
any exception raised by a sub-step propagates to the caller. -/
def enhance_image_batch (cv : Cv) (image : Buffer) : Except ExcClass Buffer :=
  match cv.fastNlMeansDenoisingColored image 10 10 7 21 with
  | Except.error c => Except.error c
  | Except.ok denoised =>
  match cv.gaussianBlur denoised (0, 0) 1 with
  | Except.error c => Except.error c
  | Except.ok gaussian =>
  match cv.addWeighted denoised (3/2) gaussian (-(1/2)) 0 with
  | Except.error c => Except.error c
  | Except.ok sharpened =>
  match cv.cvtColor sharpened ColorCode.bgr2lab with
  | Except.error c => Except.error c
  | Except.ok lab =>
  match cv.split lab with
  | Except.error c => Except.error c
  | Except.ok (l, a, b) =>
  match cv.claheApply (5/2) (8, 8) l with
  | Except.error c => Except.error c
  | Except.ok lClahe =>
  match cv.merge (lClahe, a, b) with
  | Except.error c => Except.error c
  | Except.ok merged =>
  cv.cvtColor merged ColorCode.lab2bgr

/-- The fixed 3×3 high-boost sharpening kernel of the legacy variant
(`src/old_version/enhance_images.py`, line 28). -/
def highBoostKernel : Kernel3 :=
  [[0, -1, 0], [-1, 5, -1], [0, -1, 0]]

/-- Body of the legacy `enhance_image` (`src/old_version/enhance_images.py`,
lines 17-44): denoise (7,7,7,21), strong unsharp mask (sigma 1.2, weights
1.8 / -0.8), high-boost 3×3 convolution, CLAHE (clip 3.5, 8×8 tiles),
final `detailEnhance` pass (sigma_s 10, sigma_r 0.15). -/
def enhance_body_legacy (cv : Cv) (image : Buffer) : Except ExcClass Buffer :=
  match cv.fastNlMeansDenoisingColored image 7 7 7 21 with
  | Except.error c => Except.error c
  | Except.ok denoised =>
  match cv.gaussianBlur denoised (0, 0) (6/5) with
  | Except.error c => Except.error c
  | Except.ok blur =>
  match cv.addWeighted denoised (9/5) blur (-(4/5)) 0 with
  | Except.error c => Except.error c
  | Except.ok sharp =>
  match cv.filter2D sharp (-1) highBoostKernel with
  | Except.error c => Except.error c
  | Except.ok sharp2 =>
  match cv.cvtColor sharp2 ColorCode.bgr2lab with
  | Except.error c => Except.error c
  | Except.ok lab =>
  match cv.split lab with
  | Except.error c => Except.error c
  | Except.ok (l, a, b) =>
  match cv.claheApply (7/2) (8, 8) l with
  | Except.error c => Except.error c
  | Except.ok l2 =>
  match cv.merge (l2, a, b) with
  | Except.error c => Except.error c
  | Except.ok merged =>
  match cv.cvtColor merged ColorCode.lab2bgr with
  | Except.error c => Except.error c
  | Except.ok enhanced =>
  cv.detailEnhance enhanced 10 (3/20)

/-- The legacy `enhance_image` (`src/old_version/enhance_images.py`, lines
15-47): the body is wrapped in `try ... except (ValueError, AttributeError)`
which returns the original `image`. -/
def enhance_image_legacy (cv : Cv) (image : Buffer) : Except ExcClass Buffer :=
  pytry (enhance_body_legacy cv image)
    (Clause.classes [ExcClass.valueError, ExcClass.attributeError])
    image

/-- Fixed model-file path of the legacy super-resolution stage
(`src/old_version/enhance_images.py`, line 8). -/
def MODEL_PATH : String := "ESPCN_x4.pb"

/-- Body of the legacy `super_resolution` (`src/old_version/enhance_images.py`,
lines 56-60): create the DNN super-resolution object, read the model file,
select espcn ×4, upsample. -/
def sr_body (cv : Cv) (image : Buffer) : Except ExcClass Buffer :=
  match cv.srCreate with
  | Except.error c => Except.error c
  | Except.ok _ =>
  match cv.srReadModel MODEL_PATH with
  | Except.error c => Except.error c
  | Except.ok _ =>
  match cv.srSetModel ("espcn") 4 with
  | Except.error c => Except.error c
  | Except.ok _ =>
  cv.srUpsample image

/-- The legacy `super_resolution` (`src/old_version/enhance_images.py`,
lines 53-63): the body is wrapped in `try ... except (ValueError,
AttributeError, FileNotFoundError)` which returns the original `image`. -/
def super_resolution (cv : Cv) (image : Buffer) : Except ExcClass Buffer :=
  pytry (sr_body cv image)
    (Clause.classes
      [ExcClass.valueError, ExcClass.attributeError, ExcClass.fileNotFoundError])
    image

/-- The baseline batch `apply_filters` (`src/enhance_images.py`, lines
40-59): grayscale, Canny 100/200, Gaussian blur 7×7, bilateral 9/75/75,
collected into an insertion-ordered mapping.  This variant has no
`try/except`, so any exception raised by a sub-step propagates. -/
def apply_filters_batch (cv : Cv) (image : Buffer) :
    Except ExcClass (List (String × Buffer)) :=
  match cv.cvtColor image ColorCode.bgr2gray with
  | Except.error c => Except.error c
  | Except.ok g =>
  match cv.canny image 100 200 with
  | Except.error c => Except.error c
  | Except.ok e =>
  match cv.gaussianBlur image (7, 7) 0 with
  | Except.error c => Except.error c
  | Except.ok bl =>
  match cv.bilateralFilter image 9 75 75 with
  | Except.error c => Except.error c
  | Except.ok bi =>
  Except.ok [("grayscale", g), ("edges", e), ("blur", bl), ("bilateral", bi)]

/-- Body of the legacy `apply_filters` (`src/old_version/enhance_images.py`,
lines 72-79): the same four filters with the same constants. -/
def apply_body_legacy (cv : Cv) (image : Buffer) :
    Except ExcClass (List (String × Buffer)) :=
  match cv.cvtColor image ColorCode.bgr2gray with
  | Except.error c => Except.error c
  | Except.ok g =>
  match cv.canny image 100 200 with
  | Except.error c => Except.error c
  | Except.ok e =>
  match cv.gaussianBlur image (7, 7) 0 with
  | Except.error c => Except.error c
  | Except.ok bl =>
  match cv.bilateralFilter image 9 75 75 with
  | Except.error c => Except.error c
  | Except.ok bi =>
  Except.ok [("grayscale", g), ("edges", e), ("blur", bl), ("bilateral", bi)]

/-- The legacy `apply_filters` (`src/old_version/enhance_images.py`, lines
69-82): the body is wrapped in `try ... except (ValueError, AttributeError)`
which returns the empty mapping. -/
def apply_filters_legacy (cv : Cv) (image : Buffer) :
    Except ExcClass (List (String × Buffer)) :=
  pytry (apply_body_legacy cv image)
    (Clause.classes [ExcClass.valueError, ExcClass.attributeError])
    []

/-- A logged call to `cv2.imwrite`: target path and written buffer. -/
abbrev WriteCall : Type := String × Buffer

/-- Result of a stateful run: either a value or an uncaught exception,
together with the trace of `cv2.imwrite` calls made before finishing. -/
abbrev WE (α : Type) : Type := Except ExcClass α × List WriteCall

/-- Run that returns a value and writes nothing. -/
def WE.pure {α : Type} (a : α) : WE α :=
  (Except.ok a, [])

/-- Sequencing of runs: an uncaught exception skips the continuation; the
write traces are concatenated. -/
def WE.bind {α β : Type} (x : WE α) (f : α → WE β) : WE β :=
  match x with
  | (Except.error c, w) => (Except.error c, w)
  | (Except.ok a, w) =>
    match f a with
    | (r, w2) => (r, w ++ w2)

/-- Run a write-free fallible computation. -/
def WE.lift {α : Type} (x : Except ExcClass α) : WE α :=
  (x, [])

/-- A call to `cv2.imwrite`: the call is logged in the trace whether or not
it raises. -/
def WE.imwriteCall (cv : Cv) (path : String) (b : Buffer) : WE Bool :=
  (cv.imwrite path b, [(path, b)])

/-- Translation of a Python `try: body except clause: return dflt` block
around a stateful run: writes made before the exception are kept. -/
def WE.pytryRun {α : Type} (body : WE α) (cl : Clause) (dflt : α) : WE α :=
  match body with
  | (Except.ok a, w) => (Except.ok a, w)
  | (Except.error c, w) =>
    if cl.catches c then (Except.ok dflt, w) else (Except.error c, w)

/-- Translation of `filename.lower().endswith((".jpg", ".jpeg", ".png"))`. -/
def lowerHasImageExt (s : String) : Bool :=
  let l := s.toList.map Char.toLower
  (".jpg".toList.isSuffixOf l) || (".jpeg".toList.isSuffixOf l) ||
    (".png".toList.isSuffixOf l)

/-- Translation of `os.path.splitext`: split at the rightmost dot, unless
every character before it is a dot. -/
def splitext (s : String) : String × String :=
  let cs := s.toList
  match (cs.enum.filter (fun p => p.2 == '.')).getLast? with
  | none => (s, "")
  | some p =>
    if (cs.take p.1).all (fun ch => ch == '.') then (s, "")
    else (String.mk (cs.take p.1), String.mk (cs.drop p.1))

/-- Environment of a batch run: whether the fixed input directory exists,
its listing, the behaviour of `cv2.imread` (which returns `None` rather
than raising on a bad file), and the OpenCV primitives. -/
structure BatchEnv where
  inputDirExists : Bool
  listing : List String
  imread : String → Option Buffer
  cv : Cv

/-- Translation of `os.listdir(INPUT_DIR)`: raises `FileNotFoundError`
when the directory does not exist. -/
def os_listdir (env : BatchEnv) : Except ExcClass (List String) :=
  if env.inputDirExists then Except.ok env.listing
  else Except.error ExcClass.fileNotFoundError

/-- Writing every entry of a derived-filter mapping to
`output_images/{base}_{name}{ext}` (the per-image filter loops of both
batch variants). -/
def writeFiltered (cv : Cv) (base ext : String) :
    List (String × Buffer) → WE Unit
  | [] => WE.pure ()
  | (name, img) :: rest =>
    WE.bind (WE.imwriteCall cv ("output_images/" ++ base ++ "_" ++ name ++ ext) img)
      (fun _ => writeFiltered cv base ext rest)

/-- Per-file processing of the legacy batch `main`
(`src/old_version/enhance_images.py`, lines 98-121): extension filter,
decode (skip on `None`), enhance, write `_enhanced`, super-resolve, write
`_superres`, derive filters, write each filter output. -/
def processFile_legacy (env : BatchEnv) (filename : String) : WE Unit :=
  if lowerHasImageExt filename then
    match env.imread ("input_images/" ++ filename) with
    | none => WE.pure ()
    | some image =>
      let be := splitext filename
      WE.bind (WE.lift (enhance_image_legacy env.cv image)) (fun enhanced =>
      WE.bind (WE.imwriteCall env.cv
          ("output_images/" ++ be.1 ++ "_enhanced" ++ be.2) enhanced) (fun _ =>
      WE.bind (WE.lift (super_resolution env.cv enhanced)) (fun superres =>
      WE.bind (WE.imwriteCall env.cv
          ("output_images/" ++ be.1 ++ "_superres" ++ be.2) superres) (fun _ =>
      WE.bind (WE.lift (apply_filters_legacy env.cv enhanced)) (fun filtered =>
      writeFiltered env.cv be.1 be.2 filtered)))))
  else WE.pure ()

/-- The legacy per-file loop over the directory listing. -/
def processFiles_legacy (env : BatchEnv) : List String → WE Unit
  | [] => WE.pure ()
  | f :: rest =>
    WE.bind (processFile_legacy env f) (fun _ => processFiles_legacy env rest)

/-- Body of the legacy batch `main` (`src/old_version/enhance_images.py`,
lines 91-123): report and return early when the input directory is
missing, otherwise list it and process every file. -/
def main_legacy_body (env : BatchEnv) : WE Unit :=
  if !env.inputDirExists then WE.pure ()
  else
    WE.bind (WE.lift (os_listdir env)) (fun files =>
      processFiles_legacy env files)

/-- The legacy batch `main` (`src/old_version/enhance_images.py`, lines
88-126): the body is wrapped in `try ... except (ValueError,
AttributeError, OSError)` which logs and returns normally. -/
def main_legacy (env : BatchEnv) : WE Unit :=
  WE.pytryRun (main_legacy_body env)
    (Clause.classes [ExcClass.valueError, ExcClass.attributeError, ExcClass.osError])
    ()

/-- Per-file processing of the baseline batch module-level loop
(`src/enhance_images.py`, lines 64-92): extension filter, decode (skip on
`None`), enhance, write `_enhanced`, derive filters, write each filter
output.  No `try/except` anywhere on this path. -/
def processFile_baseline (env : BatchEnv) (filename : String) : WE Unit :=
  if lowerHasImageExt filename then
    match env.imread ("input_images/" ++ filename) with
    | none => WE.pure ()
    | some image =>
      WE.bind (WE.lift (enhance_image_batch env.cv image)) (fun enhanced =>
      let be := splitext filename
      WE.bind (WE.imwriteCall env.cv
          ("output_images/" ++ be.1 ++ "_enhanced" ++ be.2) enhanced) (fun _ =>
      WE.bind (WE.lift (apply_filters_batch env.cv enhanced)) (fun filtered =>
      writeFiltered env.cv be.1 be.2 filtered)))
  else WE.pure ()

/-- The baseline per-file loop over the directory listing. -/
def processFiles_baseline (env : BatchEnv) : List String → WE Unit
  | [] => WE.pure ()
  | f :: rest =>
    WE.bind (processFile_baseline env f) (fun _ => processFiles_baseline env rest)

/-- The baseline batch module-level main loop (`src/enhance_images.py`,
lines 64-94): `for filename in os.listdir(INPUT_DIR): ...` with no
directory-existence check and no handler of any kind. -/
def batch_baseline (env : BatchEnv) : WE Unit :=
  WE.bind (WE.lift (os_listdir env)) (fun files =>
    processFiles_baseline env files)

/-- Raw upload bytes. -/
abbrev ByteData : Type := List Nat

/-- Decode flags of `cv2.imdecode` / `cv2.imread`. -/
inductive ImreadFlag where
  | color
  | grayscale
  | unchanged
deriving DecidableEq, Repr

/-- Channel coercion performed by the decode flag (documented OpenCV
semantics): `IMREAD_COLOR` always yields a 3-channel BGR buffer whatever
the native channel count of the file, `IMREAD_GRAYSCALE` one channel,
`IMREAD_UNCHANGED` keeps the native layout. -/
def forceFlag : ImreadFlag → Buffer → Buffer
  | ImreadFlag.color, b => ⟨⟨b.shape.height, b.shape.width, 3⟩, b.data⟩
  | ImreadFlag.grayscale, b => ⟨⟨b.shape.height, b.shape.width, 1⟩, b.data⟩
  | ImreadFlag.unchanged, b => b

/-- Model of `cv2.imdecode`: `raw` is the native decode of the byte stream
(`none` when the bytes are not an image); on success the flag's channel
coercion is applied.  `imdecode` returns `None` rather than raising. -/
def imdecode (raw : ByteData → Option Buffer) (bs : ByteData) (flag : ImreadFlag) :
    Option Buffer :=
  (raw bs).map (forceFlag flag)

/-- Environment of an upload request: the `await file.read()` outcome, the
native decoder of the uploaded bytes, and the OpenCV primitives. -/
structure ServiceEnv where
  read : Except ExcClass ByteData
  rawDecode : ByteData → Option Buffer
  cv : Cv

/-- Model of `uuid.uuid4()`: a fresh name drawn from the request's random
source (the only randomness in the repository). -/
def uuid4 (rng : Nat) : String :=
  "uuid-" ++ toString rng

/-- A rendered `index.html` template response: the optional `error` string
and the optional `output_image` path passed to the template. -/
inductive Response where
  | page (error : Option String) (outputImage : Option String)
deriving DecidableEq, Repr

/-- Continuation of `upload_image` after a successful decode
(`src/main.py`, lines 82-100): enhance, generate a fresh filename, write
the result, and render success or the save-failure message. -/
def upload_afterDecode (env : ServiceEnv) (rng : Nat) (image : Buffer) :
    WE Response :=
  WE.bind (WE.lift (enhance_image_service env.cv image)) (fun enhanced =>
    let filename := uuid4 rng ++ ".jpg"
    WE.bind (WE.imwriteCall env.cv ("static/output/" ++ filename) enhanced)
      (fun success =>
        if success then
          WE.pure (Response.page none (some ("static/output/" ++ filename)))
        else
          WE.pure (Response.page (some ("Failed to save enhanced image")) none)))

/-- Body of the upload handler's `try` block (`src/main.py`, lines 72-100):
read the upload, decode it with `cv2.IMREAD_COLOR`, render the
invalid-image page when decoding yields `None`, otherwise continue. -/
def upload_body (env : ServiceEnv) (rng : Nat) : WE Response :=
  match env.read with
  | Except.error c => (Except.error c, [])
  | Except.ok contents =>
    match imdecode env.rawDecode contents ImreadFlag.color with
    | none => (Except.ok (Response.page (some ("Invalid image file")) none), [])
    | some image => upload_afterDecode env rng image

/-- The upload handler `upload_image` (`src/main.py`, lines 68-112): the
body is wrapped in `try ... except (ValueError, AttributeError, OSError)
... except Exception`, each clause rendering an error page. -/
def upload_image (env : ServiceEnv) (rng : Nat) : WE Response :=
  match upload_body env rng with
  | (Except.ok r, w) => (Except.ok r, w)
  | (Except.error c, w) =>
    if (Clause.classes
        [ExcClass.valueError, ExcClass.attributeError, ExcClass.osError]).catches c then
      (Except.ok (Response.page (some ("Error processing image")) none), w)
    else if Clause.exceptionAll.catches c then
      (Except.ok (Response.page (some ("An unexpected error occurred")) none), w)
    else (Except.error c, w)

/-- The buffer the upload handler hands to the enhancement stage: the
decode of the upload bytes under `IMREAD_COLOR` (this is exactly the
`image` that `upload_body` passes to `upload_afterDecode`, which calls
`enhance_image_service` on it). -/
def upload_decoded (env : ServiceEnv) : Option Buffer :=
  match env.read with
  | Except.error _ => none
  | Except.ok contents => imdecode env.rawDecode contents ImreadFlag.color

/-- Whether a run finished without an uncaught exception. -/
def WE.isOkRun {α : Type} (x : WE α) : Bool :=
  match x with
  | (Except.ok _, _) => true
  | (Except.error _, _) => false

/-- Expected shape behaviour of the OpenCV primitives on success (the
documented semantics of the library calls the repository makes): denoising,
blurring, weighted sums, convolution, CLAHE, bilateral filtering and
detail enhancement preserve the shape; color conversions follow
`cvtShape`; `split` yields three single-channel planes; `merge` of three
planes yields a 3-channel buffer; `Canny` yields a single-channel map. -/
structure CvShapes (cv : Cv) : Prop where
  denoise : ∀ i h hc t w o, cv.fastNlMeansDenoisingColored i h hc t w = Except.ok o →
    o.shape = i.shape
  gaussian : ∀ i k s o, cv.gaussianBlur i k s = Except.ok o → o.shape = i.shape
  addW : ∀ i w1 j w2 g o, cv.addWeighted i w1 j w2 g = Except.ok o → o.shape = i.shape
  filt : ∀ i d k o, cv.filter2D i d k = Except.ok o → o.shape = i.shape
  cvt : ∀ i code o, cv.cvtColor i code = Except.ok o → o.shape = cvtShape code i.shape
  splitSh : ∀ i l a b, cv.split i = Except.ok (l, a, b) →
    l.shape = grayOf i.shape ∧ a.shape = grayOf i.shape ∧ b.shape = grayOf i.shape
  clahe : ∀ cl g i o, cv.claheApply cl g i = Except.ok o → o.shape = i.shape
  mergeSh : ∀ l a b o, cv.merge (l, a, b) = Except.ok o →
    o.shape = ⟨l.shape.height, l.shape.width, 3⟩
  detail : ∀ i s r o, cv.detailEnhance i s r = Except.ok o → o.shape = i.shape
  cannySh : ∀ i t1 t2 o, cv.canny i t1 t2 = Except.ok o → o.shape = grayOf i.shape
  bilateral : ∀ i d sc ss o, cv.bilateralFilter i d sc ss = Except.ok o →
    o.shape = i.shape

/-- A zero-filled buffer of a given shape. -/
def okBuf (s : Shape) : Buffer :=
  ⟨s, List.replicate (s.height * s.width * s.channels) 0⟩

/-- A concrete, everywhere-succeeding, shape-correct implementation of the
primitives, used to instantiate the universally quantified theorems. -/
def cvDefault : Cv where
  fastNlMeansDenoisingColored := fun i _ _ _ _ => Except.ok i
  gaussianBlur := fun i _ _ => Except.ok i
  addWeighted := fun i _ _ _ _ => Except.ok i
  filter2D := fun i _ _ => Except.ok i
  cvtColor := fun i code => Except.ok (okBuf (cvtShape code i.shape))
  split := fun i =>
    Except.ok (okBuf (grayOf i.shape), okBuf (grayOf i.shape), okBuf (grayOf i.shape))
  claheApply := fun _ _ i => Except.ok i
  merge := fun t => Except.ok (okBuf ⟨t.1.shape.height, t.1.shape.width, 3⟩)
  detailEnhance := fun i _ _ => Except.ok i
  canny := fun i _ _ => Except.ok (okBuf (grayOf i.shape))
  bilateralFilter := fun i _ _ _ => Except.ok i
  srCreate := Except.ok ()
  srReadModel := fun _ => Except.ok ()
  srSetModel := fun _ _ => Except.ok ()
  srUpsample := fun i =>
    Except.ok (okBuf ⟨i.shape.height * 4, i.shape.width * 4, i.shape.channels⟩)
  imwrite := fun _ _ => Except.ok true

/-- A small concrete 2×2 color buffer. -/
def img0 : Buffer :=
  ⟨⟨2, 2, 3⟩, List.replicate 12 7⟩

/-- Primitives where the denoising step raises `ValueError`. -/
def cvDenVE : Cv :=
  { cvDefault with fastNlMeansDenoisingColored :=
      (fun _ _ _ _ _ => Except.error ExcClass.valueError) }

/-- Primitives where the denoising step raises `cv2.error`. -/
def cvDenCvErr : Cv :=
  { cvDefault with fastNlMeansDenoisingColored :=
      (fun _ _ _ _ _ => Except.error ExcClass.cvError) }

/-- Primitives where reading the super-resolution model raises `cv2.error`. -/
def cvSrCvErr : Cv :=
  { cvDefault with srReadModel := fun _ => Except.error ExcClass.cvError }

/-- Primitives where reading the super-resolution model raises
`FileNotFoundError` (the missing-model-file case). -/
def cvSrFnf : Cv :=
  { cvDefault with srReadModel := fun _ => Except.error ExcClass.fileNotFoundError }

/-- Primitives where the grayscale conversion raises `ValueError`. -/
def cvGrayVE : Cv :=
  { cvDefault with cvtColor := fun i code =>
      match code with
      | ColorCode.bgr2gray => Except.error ExcClass.valueError
      | _ => Except.ok i }

/-- Primitives where `cv2.imwrite` raises `ValueError`. -/
def cvWriteVE : Cv :=
  { cvDefault with imwrite := fun _ _ => Except.error ExcClass.valueError }

/-- A batch environment with one valid image and primitives whose denoise
step raises `cv2.error`. -/
def benvCvErr : BatchEnv :=
  { inputDirExists := true
    listing := ["a.jpg"]
    imread := fun _ => some img0
    cv := cvDenCvErr }

/-- A batch environment whose input directory is missing. -/
def benvMissing : BatchEnv :=
  { inputDirExists := false
    listing := []
    imread := fun _ => none
    cv := cvDefault }

/-- A batch environment with one valid image and primitives whose
`imwrite` raises `ValueError`. -/
def benvWriteVE : BatchEnv :=
  { inputDirExists := true
    listing := ["a.jpg"]
    imread := fun _ => some img0
    cv := cvWriteVE }

/-- A service environment whose upload bytes are not a decodable image. -/
def senvBadUpload : ServiceEnv :=
  { read := Except.ok [1, 2, 3]
    rawDecode := fun _ => none
    cv := cvDefault }

/-- A service environment whose upload decodes natively to a single-channel
(grayscale) 2×2 image. -/
def senvGray : ServiceEnv :=
  { read := Except.ok [9]
    rawDecode := fun _ => some ⟨⟨2, 2, 1⟩, List.replicate 4 5⟩
    cv := cvDefault }

/-- A service environment whose upload decodes to `img0` and whose
primitives all succeed. -/
def senvOk : ServiceEnv :=
  { read := Except.ok [4]
    rawDecode := fun _ => some img0
    cv := cvDefault }

/-- The derived-filter contract: the mapping is exactly the four fixed
names in insertion order, the grayscale and edge outputs are
single-channel, and the blur and bilateral outputs keep the input's
channel count. -/
def FourFilters (img : Buffer) (out : List (String × Buffer)) : Prop :=
  match out with
  | [(n1, g), (n2, e), (n3, bl), (n4, bi)] =>
    n1 = "grayscale" ∧ n2 = "edges" ∧ n3 = "blur" ∧ n4 = "bilateral"
    ∧ g.shape.channels = 1 ∧ e.shape.channels = 1
    ∧ bl.shape.channels = img.shape.channels
    ∧ bi.shape.channels = img.shape.channels
  | _ => False

/-- Helper: a caught `try` block returns the fallback value. -/
theorem pytry_caught {α : Type} (body : Except ExcClass α) (cl : Clause) (d : α)
    (c : ExcClass) (hb : body = Except.error c) (hc : cl.catches c = true) :
    pytry body cl d = Except.ok d := by
  unfold pytry
  rw [hb]
  simp [hc]

/-- Helper: an uncaught `try` block propagates the exception. -/
theorem pytry_uncaught {α : Type} (body : Except ExcClass α) (cl : Clause) (d : α)
    (c : ExcClass) (hb : body = Except.error c) (hc : cl.catches c = false) :
    pytry body cl d = Except.error c := by
  unfold pytry
  rw [hb]
  simp [hc]

/-- Helper: the default primitives satisfy the documented shape behaviour. -/
theorem cvDefault_shapes : CvShapes cvDefault := by
  refine ⟨?_, ?_, ?_, ?_, ?_, ?_, ?_, ?_, ?_, ?_, ?_⟩
  · intro i h hc t w o hh
    injection hh with hh
    subst hh
    rfl
  · intro i k s o hh
    injection hh with hh
    subst hh
    rfl
  · intro i w1 j w2 g o hh
    injection hh with hh
    subst hh
    rfl
  · intro i d k o hh
    injection hh with hh
    subst hh
    rfl
  · intro i code o hh
    injection hh with hh
    subst hh
    rfl
  · intro i l a b hh
    injection hh with hh
    injection hh with h1 hh
    injection hh with h2 h3
    subst h1
    subst h2
    subst h3
    exact ⟨rfl, rfl, rfl⟩
  · intro cl g i o hh
    injection hh with hh
    subst hh
    rfl
  · intro l a b o hh
    injection hh with hh
    subst hh
    rfl
  · intro i s r o hh
    injection hh with hh
    subst hh
    rfl
  · intro i t1 t2 o hh
    injection hh with hh
    subst hh
    rfl
  · intro i d sc ss o hh
    injection hh with hh
    subst hh
    rfl

/-- Helper: a successful run of the service enhancement body yields a
3-channel buffer on the input's pixel grid. -/
theorem enhance_body_service_shape (cv : Cv) (sh : CvShapes cv) (img out : Buffer)
    (h : enhance_body_service cv img = Except.ok out) :
    out.shape = ⟨img.shape.height, img.shape.width, 3⟩ := by
  unfold enhance_body_service at h
  split at h
  · exact absurd h (by simp)
  rename_i denoised hden
  split at h
  · exact absurd h (by simp)
  rename_i blur hblur
  split at h
  · exact absurd h (by simp)
  rename_i sharpened hsharp
  split at h
  · exact absurd h (by simp)
  rename_i lab hlab
  split at h
  · exact absurd h (by simp)
  rename_i l a b hsplit
  split at h
  · exact absurd h (by simp)
  rename_i l2 hl2
  split at h
  · exact absurd h (by simp)
  rename_i merged hmerge
  have h1 := sh.denoise _ _ _ _ _ _ hden
  have h3 := sh.addW _ _ _ _ _ _ hsharp
  have h4 := sh.cvt _ _ _ hlab
  have h5 := (sh.splitSh _ _ _ _ hsplit).1
  have h6 := sh.clahe _ _ _ _ hl2
  have h7 := sh.mergeSh _ _ _ _ hmerge
  have h8 := sh.cvt _ _ _ h
  simp [cvtShape] at h4 h8
  simp [h8, h7, h6, h5, h4, h3, h1, grayOf]

/-- Helper: a successful run of the baseline batch enhancement yields a
3-channel buffer on the input's pixel grid. -/
theorem enhance_batch_shape (cv : Cv) (sh : CvShapes cv) (img out : Buffer)
    (h : enhance_image_batch cv img = Except.ok out) :
    out.shape = ⟨img.shape.height, img.shape.width, 3⟩ := by
  unfold enhance_image_batch at h
  split at h
  · exact absurd h (by simp)
  rename_i denoised hden
  split at h
  · exact absurd h (by simp)
  rename_i gaussian hblur
  split at h
  · exact absurd h (by simp)
  rename_i sharpened hsharp
  split at h
  · exact absurd h (by simp)
  rename_i lab hlab
  split at h
  · exact absurd h (by simp)
  rename_i l a b hsplit
  split at h
  · exact absurd h (by simp)
  rename_i lClahe hl2
  split at h
  · exact absurd h (by simp)
  rename_i merged hmerge
  have h1 := sh.denoise _ _ _ _ _ _ hden
  have h3 := sh.addW _ _ _ _ _ _ hsharp
  have h4 := sh.cvt _ _ _ hlab
  have h5 := (sh.splitSh _ _ _ _ hsplit).1
  have h6 := sh.clahe _ _ _ _ hl2
  have h7 := sh.mergeSh _ _ _ _ hmerge
  have h8 := sh.cvt _ _ _ h
  simp [cvtShape] at h4 h8
  simp [h8, h7, h6, h5, h4, h3, h1, grayOf]

/-- Helper: a successful run of the legacy enhancement body yields a
3-channel buffer on the input's pixel grid. -/
theorem enhance_body_legacy_shape (cv : Cv) (sh : CvShapes cv) (img out : Buffer)
    (h : enhance_body_legacy cv img = Except.ok out) :
    out.shape = ⟨img.shape.height, img.shape.width, 3⟩ := by
  unfold enhance_body_legacy at h
  split at h
  · exact absurd h (by simp)
  rename_i denoised hden
  split at h
  · exact absurd h (by simp)
  rename_i blur hblur
  split at h
  · exact absurd h (by simp)
  rename_i sharp hsharp
  split at h
  · exact absurd h (by simp)
  rename_i sharp2 hfilt
  split at h
  · exact absurd h (by simp)
  rename_i lab hlab
  split at h
  · exact absurd h (by simp)
  rename_i l a b hsplit
  split at h
  · exact absurd h (by simp)
  rename_i l2 hl2
  split at h
  · exact absurd h (by simp)
  rename_i merged hmerge
  split at h
  · exact absurd h (by simp)
  rename_i enhanced hback
  have h1 := sh.denoise _ _ _ _ _ _ hden
  have h3 := sh.addW _ _ _ _ _ _ hsharp
  have h3b := sh.filt _ _ _ _ hfilt
  have h4 := sh.cvt _ _ _ hlab
  have h5 := (sh.splitSh _ _ _ _ hsplit).1
  have h6 := sh.clahe _ _ _ _ hl2
  have h7 := sh.mergeSh _ _ _ _ hmerge
  have h8 := sh.cvt _ _ _ hback
  have h9 := sh.detail _ _ _ _ h
  simp [cvtShape] at h4 h8
  simp [h9, h8, h7, h6, h5, h4, h3b, h3, h1, grayOf]

/-- Helper: a successful run of the baseline filter stage satisfies the
four-filter contract. -/
theorem filters_batch_contract (cv : Cv) (sh : CvShapes cv) (img : Buffer)
    (out : List (String × Buffer))
    (h : apply_filters_batch cv img = Except.ok out) : FourFilters img out := by
  unfold apply_filters_batch at h
  split at h
  · exact absurd h (by simp)
  rename_i g hg
  split at h
  · exact absurd h (by simp)
  rename_i e he
  split at h
  · exact absurd h (by simp)
  rename_i bl hbl
  split at h
  · exact absurd h (by simp)
  rename_i bi hbi
  injection h with h
  subst h
  have hgs := sh.cvt _ _ _ hg
  have hes := sh.cannySh _ _ _ _ he
  have hbls := sh.gaussian _ _ _ _ hbl
  have hbis := sh.bilateral _ _ _ _ _ hbi
  simp [cvtShape] at hgs
  exact ⟨rfl, rfl, rfl, rfl, by simp [hgs, grayOf], by simp [hes, grayOf],
    by simp [hbls], by simp [hbis]⟩

/-- Helper: a successful run of the legacy filter body satisfies the
four-filter contract. -/
theorem filters_legacy_contract (cv : Cv) (sh : CvShapes cv) (img : Buffer)
    (out : List (String × Buffer))
    (h : apply_body_legacy cv img = Except.ok out) : FourFilters img out := by
  unfold apply_body_legacy at h
  split at h
  · exact absurd h (by simp)
  rename_i g hg
  split at h
  · exact absurd h (by simp)
  rename_i e he
  split at h
  · exact absurd h (by simp)
  rename_i bl hbl
  split at h
  · exact absurd h (by simp)
  rename_i bi hbi
  injection h with h
  subst h
  have hgs := sh.cvt _ _ _ hg
  have hes := sh.cannySh _ _ _ _ he
  have hbls := sh.gaussian _ _ _ _ hbl
  have hbis := sh.bilateral _ _ _ _ _ hbi
  simp [cvtShape] at hgs
  exact ⟨rfl, rfl, rfl, rfl, by simp [hgs, grayOf], by simp [hes, grayOf],
    by simp [hbls], by simp [hbis]⟩

/-- Claim C1, counterexample: the claim says every variant of the
enhancement stage catches any exception and returns the original buffer.
In the baseline batch variant (`src/enhance_images.py`, `enhance_image`)
there is no handler at all: a `ValueError` raised by the denoising
sub-step propagates to the caller instead of yielding the input buffer. -/
theorem C1_counterexample :
    enhance_image_batch cvDenVE img0 = Except.error ExcClass.valueError
    ∧ enhance_image_batch cvDenVE img0 ≠ Except.ok img0 :=
  ⟨by decide, by decide⟩

/-- Claim C1, amended: the lenient service variant catches only
`(ValueError, AttributeError, TypeError)` and the aggressive legacy
variant only `(ValueError, AttributeError)`, returning the original
buffer exactly for those classes and propagating every other exception;
the baseline batch variant has no handler and propagates every
exception raised by a sub-step. -/
theorem C1_amended (cv : Cv) (img : Buffer) (c : ExcClass) :
    (enhance_body_service cv img = Except.error c →
      ((Clause.classes [ExcClass.valueError, ExcClass.attributeError,
          ExcClass.typeError]).catches c = true →
        enhance_image_service cv img = Except.ok img)
      ∧ ((Clause.classes [ExcClass.valueError, ExcClass.attributeError,
          ExcClass.typeError]).catches c = false →
        enhance_image_service cv img = Except.error c))
    ∧ (enhance_body_legacy cv img = Except.error c →
      ((Clause.classes [ExcClass.valueError, ExcClass.attributeError]).catches c = true →
        enhance_image_legacy cv img = Except.ok img)
      ∧ ((Clause.classes [ExcClass.valueError, ExcClass.attributeError]).catches c = false →
        enhance_image_legacy cv img = Except.error c))
    ∧ (cv.fastNlMeansDenoisingColored img 10 10 7 21 = Except.error c →
        enhance_image_batch cv img = Except.error c) := by
  refine ⟨fun hb => ⟨fun hc => ?_, fun hc => ?_⟩,
    fun hb => ⟨fun hc => ?_, fun hc => ?_⟩, fun hd => ?_⟩
  · exact pytry_caught _ _ _ _ hb hc
  · exact pytry_uncaught _ _ _ _ hb hc
  · exact pytry_caught _ _ _ _ hb hc
  · exact pytry_uncaught _ _ _ _ hb hc
  · unfold enhance_image_batch
    rw [hd]

/-- Claim C1, witness: a caught `ValueError` in the service variant
returns the input unchanged; an uncaught `cv2.error` propagates out of
the service variant; the baseline batch variant propagates even a
`ValueError`. -/
theorem C1_witness :
    enhance_image_service cvDenVE img0 = Except.ok img0
    ∧ enhance_image_service cvDenCvErr img0 = Except.error ExcClass.cvError
    ∧ enhance_image_batch cvDenVE img0 = Except.error ExcClass.valueError :=
  ⟨((C1_amended cvDenVE img0 ExcClass.valueError).1 (by decide)).1 (by decide),
   ((C1_amended cvDenCvErr img0 ExcClass.cvError).1 (by decide)).2 (by decide),
   (C1_amended cvDenVE img0 ExcClass.valueError).2.2 (by decide)⟩

/-- Claim C2, counterexample: the claim says the batch `main` catches
every exception of every inner step.  In the legacy batch `main`
(`src/old_version/enhance_images.py`) a `cv2.error` raised by the
denoising step escapes `enhance_image` (which catches only `ValueError`
and `AttributeError`) and escapes `main` (which catches only
`ValueError`, `AttributeError` and `OSError`): the run terminates with an
uncaught exception. -/
theorem C2_counterexample :
    main_legacy benvCvErr = (Except.error ExcClass.cvError, [])
    ∧ WE.isOkRun (main_legacy benvCvErr) = false :=
  ⟨by decide, by decide⟩

/-- Claim C2, amended: the upload handler is enclosed by a genuine
catch-all (`except Exception`) and always returns a rendered page; the
legacy batch `main` catches only `(ValueError, AttributeError, OSError)`
(logging and returning normally for those), and propagates any other
exception; the baseline batch loop has no top-level handler at all. -/
theorem C2_amended :
    (∀ env rng, WE.isOkRun (upload_image env rng) = true)
    ∧ (∀ env c w, main_legacy_body env = (Except.error c, w) →
      ((Clause.classes [ExcClass.valueError, ExcClass.attributeError,
          ExcClass.osError]).catches c = true →
        main_legacy env = (Except.ok (), w))
      ∧ ((Clause.classes [ExcClass.valueError, ExcClass.attributeError,
          ExcClass.osError]).catches c = false →
        main_legacy env = (Except.error c, w))) := by
  constructor
  · intro env rng
    unfold upload_image
    rcases hb : upload_body env rng with ⟨r, w⟩
    cases r with
    | ok a => simp [WE.isOkRun]
    | error c =>
      simp only [Clause.catches]
      split
      · simp [WE.isOkRun]
      · simp [WE.isOkRun]
  · intro env c w h
    constructor
    · intro hc
      unfold main_legacy WE.pytryRun
      rw [h]
      simp [hc]
    · intro hc
      unfold main_legacy WE.pytryRun
      rw [h]
      simp [hc]

/-- Claim C2, witness: a successful upload request returns normally, and
a legacy batch run whose `imwrite` raises a caught `ValueError` is
absorbed by `main` and ends normally (keeping the write it attempted). -/
theorem C2_witness :
    WE.isOkRun (upload_image senvOk 0) = true
    ∧ main_legacy benvWriteVE =
        (Except.ok (), [("output_images/a_enhanced.jpg", okBuf ⟨2, 2, 3⟩)]) :=
  ⟨C2_amended.1 senvOk 0,
   (C2_amended.2 benvWriteVE ExcClass.valueError
      [("output_images/a_enhanced.jpg", okBuf ⟨2, 2, 3⟩)] (by decide)).1 (by decide)⟩

/-- Claim C3, counterexample: the claim says every batch variant reports
a missing input directory and ends early normally.  The baseline batch
loop (`src/enhance_images.py`) calls `os.listdir` with no existence
check and no handler, so the run ends with an uncaught
`FileNotFoundError`. -/
theorem C3_counterexample :
    batch_baseline benvMissing = (Except.error ExcClass.fileNotFoundError, [])
    ∧ WE.isOkRun (batch_baseline benvMissing) = false :=
  ⟨by decide, by decide⟩

/-- Claim C3, amended: when the fixed input directory is missing, the
legacy batch `main` reports it and returns early normally with no
writes, while the baseline batch loop terminates with an uncaught
`FileNotFoundError`. -/
theorem C3_amended (env : BatchEnv) (h : env.inputDirExists = false) :
    main_legacy env = (Except.ok (), [])
    ∧ batch_baseline env = (Except.error ExcClass.fileNotFoundError, []) := by
  constructor
  · simp [main_legacy, main_legacy_body, h, WE.pytryRun, WE.pure]
  · simp [batch_baseline, os_listdir, h, WE.bind, WE.lift]

/-- Claim C3, witness: the amended behaviour at the concrete
missing-directory environment. -/
theorem C3_witness :
    main_legacy benvMissing = (Except.ok (), [])
    ∧ batch_baseline benvMissing = (Except.error ExcClass.fileNotFoundError, []) :=
  C3_amended benvMissing (by decide)

/-- Claim C4, counterexample: the claim says every batch variant's
`apply_filters` catches any exception and returns an empty mapping.  The
baseline `apply_filters` (`src/enhance_images.py`) has no handler: a
`ValueError` raised by the grayscale conversion propagates instead of
yielding the empty mapping. -/
theorem C4_counterexample :
    apply_filters_batch cvGrayVE img0 = Except.error ExcClass.valueError
    ∧ apply_filters_batch cvGrayVE img0 ≠ Except.ok [] :=
  ⟨by decide, by decide⟩

/-- Claim C4, amended: the legacy `apply_filters` catches only
`(ValueError, AttributeError)` and returns the empty mapping for those
(its caller's loop over the empty mapping then performs zero filter
writes), propagating any other exception; the baseline `apply_filters`
has no handler and propagates any sub-step exception. -/
theorem C4_amended (cv : Cv) (img : Buffer) (c : ExcClass) (base ext : String) :
    (apply_body_legacy cv img = Except.error c →
      ((Clause.classes [ExcClass.valueError, ExcClass.attributeError]).catches c = true →
        apply_filters_legacy cv img = Except.ok [])
      ∧ ((Clause.classes [ExcClass.valueError, ExcClass.attributeError]).catches c = false →
        apply_filters_legacy cv img = Except.error c))
    ∧ writeFiltered cv base ext [] = (Except.ok (), [])
    ∧ (cv.cvtColor img ColorCode.bgr2gray = Except.error c →
        apply_filters_batch cv img = Except.error c) := by
  refine ⟨fun hb => ⟨fun hc => ?_, fun hc => ?_⟩, rfl, fun hg => ?_⟩
  · exact pytry_caught _ _ _ _ hb hc
  · exact pytry_uncaught _ _ _ _ hb hc
  · unfold apply_filters_batch
    rw [hg]

/-- Claim C4, witness: a caught `ValueError` makes the legacy stage
return the empty mapping, over which the caller's write loop writes
nothing; the baseline stage propagates the same `ValueError`. -/
theorem C4_witness :
    apply_filters_legacy cvGrayVE img0 = Except.ok []
    ∧ writeFiltered cvGrayVE "a" ".jpg" [] = (Except.ok (), [])
    ∧ apply_filters_batch cvGrayVE img0 = Except.error ExcClass.valueError :=
  ⟨((C4_amended cvGrayVE img0 ExcClass.valueError "a" ".jpg").1 (by decide)).1 (by decide),
   (C4_amended cvGrayVE img0 ExcClass.valueError "a" ".jpg").2.1,
   (C4_amended cvGrayVE img0 ExcClass.valueError "a" ".jpg").2.2 (by decide)⟩

/-- Claim C5, counterexample: the claim says `super_resolution` catches
any exception raised during model creation, loading or upsampling.  Its
clause catches only `(ValueError, AttributeError, FileNotFoundError)`: a
`cv2.error` raised while reading the model propagates to the caller
instead of returning the input buffer. -/
theorem C5_counterexample :
    super_resolution cvSrCvErr img0 = Except.error ExcClass.cvError
    ∧ super_resolution cvSrCvErr img0 ≠ Except.ok img0 :=
  ⟨by decide, by decide⟩

/-- Claim C5, amended: `super_resolution` catches `(ValueError,
AttributeError, FileNotFoundError)` — in particular the
missing-model-file failure — and returns its input buffer unchanged for
those, while any other exception (such as `cv2.error`) propagates to the
caller. -/
theorem C5_amended (cv : Cv) (img : Buffer) (c : ExcClass)
    (hb : sr_body cv img = Except.error c) :
    ((Clause.classes [ExcClass.valueError, ExcClass.attributeError,
        ExcClass.fileNotFoundError]).catches c = true →
      super_resolution cv img = Except.ok img)
    ∧ ((Clause.classes [ExcClass.valueError, ExcClass.attributeError,
        ExcClass.fileNotFoundError]).catches c = false →
      super_resolution cv img = Except.error c) := by
  constructor
  · intro hc
    exact pytry_caught _ _ _ _ hb hc
  · intro hc
    exact pytry_uncaught _ _ _ _ hb hc

/-- Claim C5, witness: a missing model file (`FileNotFoundError`) makes
`super_resolution` return its input unchanged, while a `cv2.error`
propagates. -/
theorem C5_witness :
    super_resolution cvSrFnf img0 = Except.ok img0
    ∧ super_resolution cvSrCvErr img0 = Except.error ExcClass.cvError :=
  ⟨(C5_amended cvSrFnf img0 ExcClass.fileNotFoundError (by decide)).1 (by decide),
   (C5_amended cvSrCvErr img0 ExcClass.cvError (by decide)).2 (by decide)⟩

/-- Claim C6: an upload whose bytes do not decode as an image
(`cv2.imdecode` yields `None`) makes the handler return the re-rendered
form page with the invalid-image error, with no call to `imwrite` (empty
write trace) and no uncaught exception. -/
theorem C6_invalid_upload_no_write (env : ServiceEnv) (rng : Nat) (bs : ByteData)
    (hr : env.read = Except.ok bs) (hd : env.rawDecode bs = none) :
    upload_image env rng =
      (Except.ok (Response.page (some ("Invalid image file")) none), []) := by
  simp [upload_image, upload_body, imdecode, hr, hd]

/-- Claim C6, witness: the invalid-image behaviour at a concrete
non-image upload. -/
theorem C6_witness :
    upload_image senvBadUpload 0 =
      (Except.ok (Response.page (some ("Invalid image file")) none), []) :=
  C6_invalid_upload_no_write senvBadUpload 0 [1, 2, 3] (by decide) (by decide)

/-- Claim C7: whenever the derived-filter stage succeeds, the returned
mapping is exactly the four keys `grayscale`, `edges`, `blur`,
`bilateral`; the grayscale and edges outputs are single-channel, and the
blur and bilateral outputs keep the input's channel count.  For the
legacy variant "succeeds" excludes the caught-failure empty mapping. -/
theorem C7_filter_mapping (cv : Cv) (sh : CvShapes cv) (img : Buffer)
    (out : List (String × Buffer)) :
    (apply_filters_batch cv img = Except.ok out → FourFilters img out)
    ∧ (apply_filters_legacy cv img = Except.ok out → out ≠ [] → FourFilters img out) := by
  constructor
  · exact filters_batch_contract cv sh img out
  · intro h hne
    unfold apply_filters_legacy pytry at h
    split at h
    · rename_i a hbody
      injection h with h
      subst h
      exact filters_legacy_contract cv sh img _ hbody
    · rename_i c hbody
      split at h
      · injection h with h
        exact absurd h.symm hne
      · exact absurd h (by simp)

/-- Claim C7, witness: the four-filter contract at a concrete success. -/
theorem C7_witness :
    FourFilters img0
      [("grayscale", okBuf ⟨2, 2, 1⟩), ("edges", okBuf ⟨2, 2, 1⟩),
        ("blur", img0), ("bilateral", img0)] :=
  (C7_filter_mapping cvDefault cvDefault_shapes img0 _).1 (by decide)

/-- Claim C8: for every valid color (3-channel) buffer, whenever an
enhancement variant returns a buffer, that buffer has the same height,
width and channel count as the input; this holds for the service,
baseline batch and legacy variants. -/
theorem C8_enhance_preserves_shape (cv : Cv) (sh : CvShapes cv) (img : Buffer)
    (hch : img.shape.channels = 3) (out : Buffer) :
    (enhance_image_service cv img = Except.ok out → out.shape = img.shape)
    ∧ (enhance_image_batch cv img = Except.ok out → out.shape = img.shape)
    ∧ (enhance_image_legacy cv img = Except.ok out → out.shape = img.shape) := by
  have himg : (⟨img.shape.height, img.shape.width, 3⟩ : Shape) = img.shape := by
    rw [← hch]
  refine ⟨fun h => ?_, fun h => ?_, fun h => ?_⟩
  · unfold enhance_image_service pytry at h
    split at h
    · rename_i a hbody
      injection h with h
      subst h
      exact (enhance_body_service_shape cv sh img _ hbody).trans himg
    · rename_i c hbody
      split at h
      · injection h with h
        subst h
        rfl
      · exact absurd h (by simp)
  · exact (enhance_batch_shape cv sh img _ h).trans himg
  · unfold enhance_image_legacy pytry at h
    split at h
    · rename_i a hbody
      injection h with h
      subst h
      exact (enhance_body_legacy_shape cv sh img _ hbody).trans himg
    · rename_i c hbody
      split at h
      · injection h with h
        subst h
        rfl
      · exact absurd h (by simp)

/-- Claim C8, witness: shape preservation at a concrete 2×2 color
buffer through the service variant. -/
theorem C8_witness :
    img0.shape.channels = 3 ∧ (okBuf ⟨2, 2, 3⟩).shape = img0.shape :=
  ⟨by decide,
   (C8_enhance_preserves_shape cvDefault cvDefault_shapes img0 (by decide)
      (okBuf ⟨2, 2, 3⟩)).1 (by decide)⟩

/-- Helper: the upload handler's catch clauses do not change the write
trace of its body. -/
theorem upload_image_writes (env : ServiceEnv) (rng : Nat) :
    (upload_image env rng).2 = (upload_body env rng).2 := by
  unfold upload_image
  rcases hb : upload_body env rng with ⟨r, w⟩
  cases r with
  | ok a => rfl
  | error c =>
    cases hc : (Clause.classes [ExcClass.valueError, ExcClass.attributeError,
        ExcClass.osError]).catches c <;> simp only [hc] <;> rfl

/-- Helper: the buffers written by an upload run are determined by the
decoded image and the (deterministic) enhancement alone — the random
source only enters the generated filename. -/
theorem upload_writes_of_run (env : ServiceEnv) (rng : Nat) :
    (upload_body env rng).2.map Prod.snd =
      (match upload_decoded env with
       | none => []
       | some image =>
         match enhance_image_service env.cv image with
         | Except.error _ => []
         | Except.ok enh => [enh]) := by
  unfold upload_body upload_decoded upload_afterDecode
  cases hr : env.read with
  | error c => rfl
  | ok contents =>
    cases hd : imdecode env.rawDecode contents ImreadFlag.color with
    | none => simp [hd]
    | some image =>
      cases he : enhance_image_service env.cv image with
      | error c => simp [hd, he, WE.bind, WE.lift]
      | ok enh =>
        simp only [hd, he, WE.bind, WE.lift, WE.imwriteCall, WE.pure]
        cases hw : env.cv.imwrite ("static/output/" ++ (uuid4 rng ++ ".jpg")) enh with
        | error c => simp [hw]
        | ok b => cases b <;> simp [hw]

/-- Claim C9: the enhancement stage is deterministic — the only random
source in the program (the uuid filename generator of the upload
handler) does not influence the enhanced buffers: two runs of the upload
pipeline on the same environment with different random sources write
byte-identical buffers. -/
theorem C9_enhancement_deterministic (env : ServiceEnv) (r1 r2 : Nat) :
    ((upload_image env r1).2).map Prod.snd = ((upload_image env r2).2).map Prod.snd := by
  rw [upload_image_writes env r1, upload_image_writes env r2,
    upload_writes_of_run env r1, upload_writes_of_run env r2]

/-- Claim C10: every uploaded image that decodes successfully is decoded
with `IMREAD_COLOR`, so the buffer `upload_body` hands to the
enhancement continuation always has exactly 3 channels, whatever the
native channel count of the uploaded file. -/
theorem C10_upload_decode_forced_color (env : ServiceEnv) (rng : Nat)
    (bs : ByteData) (image : Buffer) (hr : env.read = Except.ok bs)
    (hd : imdecode env.rawDecode bs ImreadFlag.color = some image) :
    upload_body env rng = upload_afterDecode env rng image
    ∧ image.shape.channels = 3 := by
  constructor
  · unfold upload_body
    rw [hr]
    simp [hd]
  · unfold imdecode at hd
    cases hraw : env.rawDecode bs with
    | none =>
      rw [hraw] at hd
      exact absurd hd (by simp)
    | some raw =>
      rw [hraw] at hd
      simp only [Option.map] at hd
      injection hd with hd
      rw [← hd]
      rfl

/-- Claim C10, witness: a natively single-channel (grayscale) upload is
handed to the enhancement stage as a 3-channel buffer. -/
theorem C10_witness :
    upload_body senvGray 0 = upload_afterDecode senvGray 0 ⟨⟨2, 2, 3⟩, List.replicate 4 5⟩
    ∧ (⟨⟨2, 2, 3⟩, List.replicate 4 5⟩ : Buffer).shape.channels = 3 :=
  C10_upload_decode_forced_color senvGray 0 [9] ⟨⟨2, 2, 3⟩, List.replicate 4 5⟩
    (by decide) (by decide)

end ImageEnhancer
